import Mathlib

/-
Verification of the cut-derivation engine of ShepherdsPowerTools
(src/renderer/src/pages/DoorCalculator.tsx).  The engine `calculateCuts`
is a pure function from a door configuration to a cut-list result; it is
embedded here over the rationals, mirroring the source line by line.
JavaScript `Math.round(v * 10) / 10` becomes `r` below, built on the
Mathlib `round` function (round half toward positive infinity, the same
convention).
-/

namespace ShepherdsPowerTools

/-- The `handleSide` enumeration: the source uses a union of the two
string literals left and right. -/
inductive HandleSide where
  | left : HandleSide
  | right : HandleSide
deriving DecidableEq

/-- Input configuration, mirroring `interface DoorConfig` (all numeric
fields are JavaScript numbers, embedded as rationals). -/
structure DoorConfig where
  doorWidth : ℚ
  doorHeight : ℚ
  topMargin : ℚ
  bottomMargin : ℚ
  leftMargin : ℚ
  rightMargin : ℚ
  horizontalGap : ℚ
  verticalGap : ℚ
  beadingWidth : ℚ
  mdfPanelWidth : ℚ
  topPanelRatio : ℚ
  handleSide : HandleSide
  handleHeight : ℚ
  handleIndent : ℚ
  handleSpread : ℚ
deriving DecidableEq

/-- Absolute coordinates of one quadrant, mirroring `interface UnitPosition`. -/
structure UnitPosition where
  label : String
  beadingLeftX : ℚ
  beadingRightX : ℚ
  beadingY : ℚ
  pinX : ℚ
  pinY : ℚ
deriving DecidableEq

/-- Output record, mirroring `interface CutResult`. -/
structure CutResult where
  panelWidth : ℚ
  topPanelHeight : ℚ
  bottomPanelHeight : ℚ
  topHorizontalBeading : ℚ
  topVerticalBeading : ℚ
  bottomHorizontalBeading : ℚ
  bottomVerticalBeading : ℚ
  topHorizontalBeadingShort : ℚ
  topVerticalBeadingShort : ℚ
  bottomHorizontalBeadingShort : ℚ
  bottomVerticalBeadingShort : ℚ
  panelBeadingGap : ℚ
  unitPositions : List UnitPosition
  handleWarnings : List String
  isValid : Bool
  errors : List String
deriving DecidableEq

/-- The rounding helper `const r = (v) => Math.round(v * 10) / 10`
(round to one decimal place). -/
def r (v : ℚ) : ℚ := (round (v * 10) : ℤ) / 10

/-- Line 107: `availableWidth = doorWidth - leftMargin - rightMargin - horizontalGap`. -/
def availableWidth (c : DoorConfig) : ℚ :=
  c.doorWidth - c.leftMargin - c.rightMargin - c.horizontalGap

/-- Line 108: `availableHeight = doorHeight - topMargin - bottomMargin - verticalGap`. -/
def availableHeight (c : DoorConfig) : ℚ :=
  c.doorHeight - c.topMargin - c.bottomMargin - c.verticalGap

/-- Line 111: `panelUnitWidth = availableWidth / 2`. -/
def panelUnitWidth (c : DoorConfig) : ℚ := availableWidth c / 2

/-- Line 112: `panelWidth = c.mdfPanelWidth`. -/
def panelWidth (c : DoorConfig) : ℚ := c.mdfPanelWidth

/-- Line 115: `panelBeadingGap = (panelUnitWidth - 2 * beadingWidth - panelWidth) / 2`. -/
def panelBeadingGap (c : DoorConfig) : ℚ :=
  (panelUnitWidth c - 2 * c.beadingWidth - panelWidth c) / 2

/-- Line 117: `topUnitHeight = availableHeight * (topPanelRatio / 100)`. -/
def topUnitHeight (c : DoorConfig) : ℚ :=
  availableHeight c * (c.topPanelRatio / 100)

/-- Line 118: `bottomUnitHeight = availableHeight * ((100 - topPanelRatio) / 100)`. -/
def bottomUnitHeight (c : DoorConfig) : ℚ :=
  availableHeight c * ((100 - c.topPanelRatio) / 100)

/-- Line 119: `topPanelHeight = topUnitHeight - 2 * beadingWidth - 2 * panelBeadingGap`. -/
def topPanelHeight (c : DoorConfig) : ℚ :=
  topUnitHeight c - 2 * c.beadingWidth - 2 * panelBeadingGap c

/-- Line 120: `bottomPanelHeight = bottomUnitHeight - 2 * beadingWidth - 2 * panelBeadingGap`. -/
def bottomPanelHeight (c : DoorConfig) : ℚ :=
  bottomUnitHeight c - 2 * c.beadingWidth - 2 * panelBeadingGap c

/-- Error message pushed at line 129. -/
def errMsgPanelWidth : String := "MDF panel width must be greater than 0."

/-- Error message pushed at line 131. -/
def errMsgPanelTooWide : String :=
  "MDF panel is too wide for the available space — reduce panel width or increase door width/margins."

/-- Error message pushed at line 133. -/
def errMsgTopPanel : String := "Top panel height is negative — adjust margins, gaps or ratio."

/-- Error message pushed at line 135. -/
def errMsgBottomPanel : String := "Bottom panel height is negative — adjust margins, gaps or ratio."

/-- The four `errors.push` statements of lines 128-135, in source order. -/
def errors (c : DoorConfig) : List String :=
  (if panelWidth c ≤ 0 then [errMsgPanelWidth] else [])
    ++ (if panelBeadingGap c < 0 then [errMsgPanelTooWide] else [])
    ++ (if topPanelHeight c ≤ 0 then [errMsgTopPanel] else [])
    ++ (if bottomPanelHeight c ≤ 0 then [errMsgBottomPanel] else [])

/-- Line 138: `handleMargin` selects `leftMargin` for a left-side handle
and `rightMargin` otherwise. -/
def handleMargin (c : DoorConfig) : ℚ :=
  match c.handleSide with
  | .left => c.leftMargin
  | .right => c.rightMargin

/-- Line 141: `handleTop = handleHeight - 80`. -/
def handleTop (c : DoorConfig) : ℚ := c.handleHeight - 80

/-- Line 142: `handleBottom = handleHeight + 80`. -/
def handleBottom (c : DoorConfig) : ℚ := c.handleHeight + 80

/-- Line 145: `topUnitTop = topMargin`. -/
def topUnitTop (c : DoorConfig) : ℚ := c.topMargin

/-- Line 146: `topUnitBottom = topMargin + topUnitHeight`. -/
def topUnitBottom (c : DoorConfig) : ℚ := c.topMargin + topUnitHeight c

/-- Line 148: `bottomUnitTop = topMargin + topUnitHeight + verticalGap`. -/
def bottomUnitTop (c : DoorConfig) : ℚ := c.topMargin + topUnitHeight c + c.verticalGap

/-- Line 149: `bottomUnitBottom = bottomUnitTop + bottomUnitHeight`. -/
def bottomUnitBottom (c : DoorConfig) : ℚ := bottomUnitTop c + bottomUnitHeight c

/-- Line 151: `overlapsTop = handleBottom > topUnitTop && handleTop < topUnitBottom`. -/
def overlapsTop (c : DoorConfig) : Prop :=
  handleBottom c > topUnitTop c ∧ handleTop c < topUnitBottom c

/-- Line 152: `overlapsBottom = handleBottom > bottomUnitTop && handleTop < bottomUnitBottom`. -/
def overlapsBottom (c : DoorConfig) : Prop :=
  handleBottom c > bottomUnitTop c ∧ handleTop c < bottomUnitBottom c

instance (c : DoorConfig) : Decidable (overlapsTop c) := by
  unfold overlapsTop; infer_instance

instance (c : DoorConfig) : Decidable (overlapsBottom c) := by
  unfold overlapsBottom; infer_instance

/-- Stringification of a `HandleSide`, as the template literal interpolation
of `c.handleSide` produces. -/
def sideName : HandleSide → String
  | .left => "left"
  | .right => "right"

/-- Rendering of `overlap.toFixed(1)`: one decimal digit. -/
def toFixed1 (q : ℚ) : String :=
  let n : ℤ := round (q * 10)
  let s := toString (n.natAbs / 10) ++ "." ++ toString (n.natAbs % 10)
  if n < 0 then "-" ++ s else s

/-- The warning message template of lines 156-158. -/
def handleWarningMsg (c : DoorConfig) : String :=
  "Handle hardware extends " ++ toFixed1 (c.handleSpread - handleMargin c)
    ++ " mm past the " ++ sideName c.handleSide
    ++ " margin into the beading zone. Increase the " ++ sideName c.handleSide
    ++ " margin to at least " ++ toString c.handleSpread
    ++ " mm or reduce handle spread."

/-- The handle-collision check of lines 138-160: an outer guard on
`handleSpread > handleMargin` and an inner guard on vertical overlap,
pushing at most one message. -/
def handleWarnings (c : DoorConfig) : List String :=
  if c.handleSpread > handleMargin c then
    if overlapsTop c ∨ overlapsBottom c then [handleWarningMsg c] else []
  else []

/-- Line 163: `colXs = [leftMargin, leftMargin + panelUnitWidth + horizontalGap]`. -/
def colXs (c : DoorConfig) : List ℚ :=
  [c.leftMargin, c.leftMargin + panelUnitWidth c + c.horizontalGap]

/-- Line 164: `rowYs = [topMargin, topMargin + topUnitHeight + verticalGap]`. -/
def rowYs (c : DoorConfig) : List ℚ :=
  [c.topMargin, c.topMargin + topUnitHeight c + c.verticalGap]

/-- Line 166: the `labels` array (Top-Left, Top-Right, Bottom-Left,
Bottom-Right). -/
def labels : List String := ["Top-Left", "Top-Right", "Bottom-Left", "Bottom-Right"]

/-- Body of the double loop of lines 169-183 for row index `ri` and column
index `ci`. -/
def mkUnitPosition (c : DoorConfig) (ri ci : Nat) : UnitPosition :=
  let lx := (colXs c).getD ci 0
  let ty := (rowYs c).getD ri 0
  { label := labels.getD (ri * 2 + ci) ""
    beadingLeftX := r lx
    beadingRightX := r (lx + panelUnitWidth c)
    beadingY := r ty
    pinX := r (lx + panelUnitWidth c / 2)
    pinY := r (ty + c.beadingWidth / 2) }

/-- The `unitPositions` array built by the nested loops of lines 168-183
(row-major: `ri` outer, `ci` inner). -/
def unitPositions (c : DoorConfig) : List UnitPosition :=
  (List.range 2).flatMap fun ri => (List.range 2).map fun ci => mkUnitPosition c ri ci

/-- The engine `calculateCuts` (lines 102-205): assembles the returned
`CutResult`, rounding every numeric output to one decimal place. -/
def calculateCuts (c : DoorConfig) : CutResult :=
  { panelWidth := r (panelWidth c)
    topPanelHeight := r (topPanelHeight c)
    bottomPanelHeight := r (bottomPanelHeight c)
    topHorizontalBeading := r (panelUnitWidth c)
    topVerticalBeading := r (topUnitHeight c)
    bottomHorizontalBeading := r (panelUnitWidth c)
    bottomVerticalBeading := r (bottomUnitHeight c)
    topHorizontalBeadingShort := r (panelUnitWidth c - 2 * c.beadingWidth)
    topVerticalBeadingShort := r (topUnitHeight c - 2 * c.beadingWidth)
    bottomHorizontalBeadingShort := r (panelUnitWidth c - 2 * c.beadingWidth)
    bottomVerticalBeadingShort := r (bottomUnitHeight c - 2 * c.beadingWidth)
    panelBeadingGap := r (panelBeadingGap c)
    unitPositions := unitPositions c
    handleWarnings := handleWarnings c
    isValid := (errors c).length == 0
    errors := errors c }

/-- The default configuration of lines 76-92 (standard UK interior door). -/
def defaultConfig : DoorConfig :=
  { doorWidth := 762
    doorHeight := 1981
    topMargin := 100
    bottomMargin := 100
    leftMargin := 80
    rightMargin := 80
    horizontalGap := 80
    verticalGap := 80
    beadingWidth := 20
    mdfPanelWidth := 215
    topPanelRatio := 40
    handleSide := .left
    handleHeight := 1000
    handleIndent := 55
    handleSpread := 140 }

/-- A configuration identical to `defaultConfig` except for `handleIndent`
(which `calculateCuts` never reads). -/
def indentVariantConfig : DoorConfig := { defaultConfig with handleIndent := 99 }

/-- A configuration with a beading width that is not a multiple of 0.05 mm,
so that rounding the short-point length to one decimal place loses the exact
short-point law. -/
def fineBeadingConfig : DoorConfig := { defaultConfig with beadingWidth := 3 / 100 }

/-- A configuration whose handle band exactly touches the top unit span:
`handleHeight + 80 = 100 = topMargin`. -/
def touchingHandleConfig : DoorConfig := { defaultConfig with handleHeight := 20 }

/-- A configuration with `topPanelRatio = 0`: the top unit has height 0, so no
panel width at all can make the layout valid. -/
def zeroRatioConfig : DoorConfig := { defaultConfig with topPanelRatio := 0 }

/-- Replace only the `mdfPanelWidth` field (the mutation considered by the
validity-monotonicity property). -/
def setWidth (c : DoorConfig) (w : ℚ) : DoorConfig := { c with mdfPanelWidth := w }

section Helpers

/-- Rounding to one decimal place moves a value by at most 1/20 = 0.05. -/
theorem r_abs_sub (v : ℚ) : |r v - v| ≤ 1 / 20 := by
  unfold r
  have h := abs_sub_round (v * 10)
  rw [abs_sub_comm] at h
  have e : ((round (v * 10) : ℤ) : ℚ) / 10 - v = (((round (v * 10) : ℤ) : ℚ) - v * 10) / 10 := by
    ring
  rw [e, abs_div, abs_of_pos (show (0 : ℚ) < 10 by norm_num)]
  linarith

/-- Rounding commutes with subtracting `2 * bw` whenever `20 * bw` is an
integer (i.e. `bw` is a multiple of 0.05). -/
theorem r_sub_twice (x bw : ℚ) (k : ℤ) (hk : (k : ℚ) = 20 * bw) :
    r (x - 2 * bw) = r x - 2 * bw := by
  unfold r
  have e : (x - 2 * bw) * 10 = x * 10 - (k : ℚ) := by rw [hk]; ring
  have hk10 : (k : ℚ) / 10 = 2 * bw := by rw [hk]; ring
  rw [e, round_sub_int]
  push_cast
  rw [sub_div, hk10]

/-- The `errors` list is empty exactly when all four validity conditions
hold. -/
theorem errors_eq_nil_iff (c : DoorConfig) :
    errors c = [] ↔
      0 < panelWidth c ∧ 0 ≤ panelBeadingGap c ∧ 0 < topPanelHeight c ∧
        0 < bottomPanelHeight c := by
  unfold errors
  split_ifs with h1 h2 h3 h4 <;> simp_all [not_le, not_lt]

/-- The returned `isValid` flag is `true` exactly when `errors` is empty. -/
theorem isValid_iff_errors_nil (c : DoorConfig) :
    (calculateCuts c).isValid = true ↔ errors c = [] := by
  show ((errors c).length == 0) = true ↔ errors c = []
  rw [beq_iff_eq, List.length_eq_zero]

/-- The returned `isValid` flag is `true` exactly when all four validity
conditions hold. -/
theorem isValid_iff_conditions (c : DoorConfig) :
    (calculateCuts c).isValid = true ↔
      0 < panelWidth c ∧ 0 ≤ panelBeadingGap c ∧ 0 < topPanelHeight c ∧
        0 < bottomPanelHeight c := by
  rw [isValid_iff_errors_nil, errors_eq_nil_iff]

/-- On the default configuration no validity condition fails. -/
theorem errors_defaultConfig : errors defaultConfig = [] := by
  rw [errors_eq_nil_iff]
  norm_num [panelWidth, panelBeadingGap, panelUnitWidth, availableWidth,
    topPanelHeight, bottomPanelHeight, topUnitHeight, bottomUnitHeight,
    availableHeight, defaultConfig]

/-- The default configuration is valid. -/
theorem isValid_defaultConfig : (calculateCuts defaultConfig).isValid = true := by
  rw [isValid_iff_errors_nil]
  exact errors_defaultConfig

/-- With `topPanelRatio = 0`, no panel width yields a valid layout: a
non-negative gap forces `mdfPanelWidth ≤ 221`, while a positive top panel
height forces `mdfPanelWidth > 261`. -/
theorem zeroRatioConfig_invalid (w : ℚ) :
    (calculateCuts (setWidth zeroRatioConfig w)).isValid = false := by
  cases hb : (calculateCuts (setWidth zeroRatioConfig w)).isValid with
  | false => rfl
  | true =>
    exfalso
    obtain ⟨-, hg, ht, -⟩ := (isValid_iff_conditions _).mp hb
    have e1 : panelBeadingGap (setWidth zeroRatioConfig w) = (221 - w) / 2 := by
      show ((762 - 80 - 80 - 80 : ℚ) / 2 - 2 * 20 - w) / 2 = (221 - w) / 2
      norm_num
    have e2 : topPanelHeight (setWidth zeroRatioConfig w) = w - 261 := by
      show (1981 - 100 - 100 - 80 : ℚ) * (0 / 100) - 2 * 20 -
          2 * (((762 - 80 - 80 - 80 : ℚ) / 2 - 2 * 20 - w) / 2) = w - 261
      ring_nf
    rw [e1] at hg
    rw [e2] at ht
    linarith

end Helpers

/-- C1 (counterexample): on the default configuration the returned
`topHorizontalBeading` is 261, not 301 as the claim states — the code
subtracts the horizontal gap from the available width
(762 − 80 − 80 − 80 = 522, unit width 261), while the claimed figures
forget that subtraction. -/
theorem C1_counterexample :
    (calculateCuts defaultConfig).topHorizontalBeading ≠ 301 := by
  show r (panelUnitWidth defaultConfig) ≠ 301
  norm_num [panelUnitWidth, availableWidth, defaultConfig, r, round_eq]

/-- C1 (amended): Scenario A on the default configuration actually yields
availableWidth = 522, panelUnitWidth = 261, panelBeadingGap = 3,
availableHeight = 1701, topUnitHeight = 680.4, bottomUnitHeight = 1020.6,
topPanelHeight = 634.4, bottomPanelHeight = 974.6,
topHorizontalBeading = 261, topHorizontalBeadingShort = 221 and
isValid = true. -/
theorem C1_scenarioA :
    availableWidth defaultConfig = 522
      ∧ panelUnitWidth defaultConfig = 261
      ∧ (calculateCuts defaultConfig).panelBeadingGap = 3
      ∧ availableHeight defaultConfig = 1701
      ∧ (calculateCuts defaultConfig).topVerticalBeading = 680.4
      ∧ (calculateCuts defaultConfig).bottomVerticalBeading = 1020.6
      ∧ (calculateCuts defaultConfig).topPanelHeight = 634.4
      ∧ (calculateCuts defaultConfig).bottomPanelHeight = 974.6
      ∧ (calculateCuts defaultConfig).topHorizontalBeading = 261
      ∧ (calculateCuts defaultConfig).topHorizontalBeadingShort = 221
      ∧ (calculateCuts defaultConfig).isValid = true := by
  refine ⟨?_, ?_, ?_, ?_, ?_, ?_, ?_, ?_, ?_, ?_, isValid_defaultConfig⟩ <;>
    norm_num [calculateCuts, panelWidth, panelBeadingGap, panelUnitWidth,
      availableWidth, topPanelHeight, bottomPanelHeight, topUnitHeight,
      bottomUnitHeight, availableHeight, defaultConfig, r, round_eq]

/-- C2 (counterexample): on the default configuration
`topUnitHeight + verticalGap + bottomUnitHeight` is 1781, which differs from
`availableHeight = 1701` by the whole vertical gap of 80, far beyond the
claimed 0.05 tolerance. -/
theorem C2_counterexample :
    ¬ |(calculateCuts defaultConfig).topVerticalBeading + defaultConfig.verticalGap
        + (calculateCuts defaultConfig).bottomVerticalBeading
        - availableHeight defaultConfig| ≤ 0.05 := by
  show ¬ |r (topUnitHeight defaultConfig) + defaultConfig.verticalGap
      + r (bottomUnitHeight defaultConfig) - availableHeight defaultConfig| ≤ 0.05
  norm_num [topUnitHeight, bottomUnitHeight, availableHeight, defaultConfig,
    r, round_eq]

/-- C2 (amended): for every configuration,
`topUnitHeight + verticalGap + bottomUnitHeight` equals
`availableHeight + verticalGap` (that is, doorHeight − topMargin −
bottomMargin) to within 0.1 — each of the two returned heights is rounded to
one decimal place, contributing up to 0.05 each. -/
theorem C2_row_sum (c : DoorConfig) :
    |(calculateCuts c).topVerticalBeading + c.verticalGap
        + (calculateCuts c).bottomVerticalBeading
        - (availableHeight c + c.verticalGap)| ≤ 1 / 10 := by
  have hsum : topUnitHeight c + bottomUnitHeight c = availableHeight c := by
    unfold topUnitHeight bottomUnitHeight
    ring
  have e1 := r_abs_sub (topUnitHeight c)
  have e2 := r_abs_sub (bottomUnitHeight c)
  show |r (topUnitHeight c) + c.verticalGap + r (bottomUnitHeight c)
      - (availableHeight c + c.verticalGap)| ≤ 1 / 10
  have e : r (topUnitHeight c) + c.verticalGap + r (bottomUnitHeight c)
      - (availableHeight c + c.verticalGap)
      = (r (topUnitHeight c) - topUnitHeight c)
        + (r (bottomUnitHeight c) - bottomUnitHeight c) := by
    rw [← hsum]; ring
  rw [e]
  calc |(r (topUnitHeight c) - topUnitHeight c)
        + (r (bottomUnitHeight c) - bottomUnitHeight c)|
      ≤ |r (topUnitHeight c) - topUnitHeight c|
        + |r (bottomUnitHeight c) - bottomUnitHeight c| := abs_add _ _
    _ ≤ 1 / 20 + 1 / 20 := add_le_add e1 e2
    _ = 1 / 10 := by norm_num

/-- C3: the returned `panelBeadingGap`, `panelWidth`, `topHorizontalBeading`
and `bottomHorizontalBeading` are exactly the step 1-3 formulas of the spec,
rounded to one decimal place: exactly one horizontal gap is subtracted,
`panelWidth` is a pass-through of `mdfPanelWidth`, and both horizontal
beading long points equal `panelUnitWidth`. -/
theorem C3_derivation_formulas (c : DoorConfig) :
    (calculateCuts c).panelBeadingGap
        = r (((c.doorWidth - c.leftMargin - c.rightMargin - c.horizontalGap) / 2
            - 2 * c.beadingWidth - c.mdfPanelWidth) / 2)
      ∧ (calculateCuts c).panelWidth = r c.mdfPanelWidth
      ∧ (calculateCuts c).topHorizontalBeading
        = r ((c.doorWidth - c.leftMargin - c.rightMargin - c.horizontalGap) / 2)
      ∧ (calculateCuts c).bottomHorizontalBeading
        = r ((c.doorWidth - c.leftMargin - c.rightMargin - c.horizontalGap) / 2) :=
  ⟨rfl, rfl, rfl, rfl⟩

/-- C4: `calculateCuts` is total by construction; a validity error message is
in the returned `errors` exactly when its condition fails (`panelWidth ≤ 0`,
`panelBeadingGap < 0`, `topPanelHeight ≤ 0`, `bottomPanelHeight ≤ 0`, in
source order); `isValid` holds exactly when `errors` is empty, equivalently
when all four conditions pass; and the handle inputs (hence
`handleWarnings`) never affect `isValid`. -/
theorem C4_totality_and_errors (c : DoorConfig) :
    (calculateCuts c).errors
        = (if panelWidth c ≤ 0 then [errMsgPanelWidth] else [])
            ++ (if panelBeadingGap c < 0 then [errMsgPanelTooWide] else [])
            ++ (if topPanelHeight c ≤ 0 then [errMsgTopPanel] else [])
            ++ (if bottomPanelHeight c ≤ 0 then [errMsgBottomPanel] else [])
      ∧ ((calculateCuts c).isValid = true ↔ (calculateCuts c).errors = [])
      ∧ ((calculateCuts c).isValid = true ↔
          0 < panelWidth c ∧ 0 ≤ panelBeadingGap c ∧ 0 < topPanelHeight c ∧
            0 < bottomPanelHeight c)
      ∧ ∀ (side : HandleSide) (hh hi hsp : ℚ),
          (calculateCuts { c with
              handleSide := side
              handleHeight := hh
              handleIndent := hi
              handleSpread := hsp }).isValid
            = (calculateCuts c).isValid :=
  ⟨rfl, isValid_iff_errors_nil c, isValid_iff_conditions c, fun _ _ _ _ => rfl⟩

/-- C5 (counterexample): with `beadingWidth = 0.03`, the returned
`topHorizontalBeadingShort` is 260.9 (the rounded value of 260.94), while
`topHorizontalBeading − 2·beadingWidth` is 260.94 — the short-point law does
not hold exactly on the rounded outputs. -/
theorem C5_counterexample :
    ¬ ((calculateCuts fineBeadingConfig).topHorizontalBeadingShort
        = (calculateCuts fineBeadingConfig).topHorizontalBeading
          - 2 * fineBeadingConfig.beadingWidth) := by
  show ¬ (r (panelUnitWidth fineBeadingConfig - 2 * fineBeadingConfig.beadingWidth)
      = r (panelUnitWidth fineBeadingConfig) - 2 * fineBeadingConfig.beadingWidth)
  norm_num [panelUnitWidth, availableWidth, fineBeadingConfig, defaultConfig,
    r, round_eq]

/-- C5 (amended): whenever `20 · beadingWidth` is an integer (the beading
width is a multiple of 0.05 mm, as every integer width is), each of the four
returned short-point lengths equals its long-point length minus
`2 · beadingWidth` exactly. -/
theorem C5_short_point_law (c : DoorConfig) (k : ℤ)
    (hk : (k : ℚ) = 20 * c.beadingWidth) :
    (calculateCuts c).topHorizontalBeadingShort
        = (calculateCuts c).topHorizontalBeading - 2 * c.beadingWidth
      ∧ (calculateCuts c).topVerticalBeadingShort
        = (calculateCuts c).topVerticalBeading - 2 * c.beadingWidth
      ∧ (calculateCuts c).bottomHorizontalBeadingShort
        = (calculateCuts c).bottomHorizontalBeading - 2 * c.beadingWidth
      ∧ (calculateCuts c).bottomVerticalBeadingShort
        = (calculateCuts c).bottomVerticalBeading - 2 * c.beadingWidth :=
  ⟨r_sub_twice (panelUnitWidth c) c.beadingWidth k hk,
    r_sub_twice (topUnitHeight c) c.beadingWidth k hk,
    r_sub_twice (panelUnitWidth c) c.beadingWidth k hk,
    r_sub_twice (bottomUnitHeight c) c.beadingWidth k hk⟩

/-- C5 (witness): the default configuration has `beadingWidth = 20`, so
`k = 400` discharges the hypothesis and the short-point law holds there. -/
theorem C5_witness :
    ((400 : ℤ) : ℚ) = 20 * defaultConfig.beadingWidth
      ∧ ((calculateCuts defaultConfig).topHorizontalBeadingShort
            = (calculateCuts defaultConfig).topHorizontalBeading
              - 2 * defaultConfig.beadingWidth
          ∧ (calculateCuts defaultConfig).topVerticalBeadingShort
            = (calculateCuts defaultConfig).topVerticalBeading
              - 2 * defaultConfig.beadingWidth
          ∧ (calculateCuts defaultConfig).bottomHorizontalBeadingShort
            = (calculateCuts defaultConfig).bottomHorizontalBeading
              - 2 * defaultConfig.beadingWidth
          ∧ (calculateCuts defaultConfig).bottomVerticalBeadingShort
            = (calculateCuts defaultConfig).bottomVerticalBeading
              - 2 * defaultConfig.beadingWidth) :=
  ⟨by norm_num [defaultConfig],
    C5_short_point_law defaultConfig 400 (by norm_num [defaultConfig])⟩

/-- C6 (counterexample): with `handleHeight = 20` the handle band
[−60, 100] meets the top unit span [100, 780.4] in the single point 100, so
the claimed closed-interval intersection criterion demands a warning, yet
the strict comparison in the code (`handleBottom > topUnitTop`) emits none. -/
theorem C6_counterexample :
    ¬ ((calculateCuts touchingHandleConfig).handleWarnings ≠ [] ↔
        touchingHandleConfig.handleSpread > handleMargin touchingHandleConfig
          ∧ ((Set.Icc (touchingHandleConfig.handleHeight - 80)
                  (touchingHandleConfig.handleHeight + 80)
                ∩ Set.Icc touchingHandleConfig.topMargin
                  (touchingHandleConfig.topMargin
                    + topUnitHeight touchingHandleConfig)).Nonempty
            ∨ (Set.Icc (touchingHandleConfig.handleHeight - 80)
                  (touchingHandleConfig.handleHeight + 80)
                ∩ Set.Icc (touchingHandleConfig.topMargin
                    + topUnitHeight touchingHandleConfig
                    + touchingHandleConfig.verticalGap)
                  (touchingHandleConfig.topMargin
                    + topUnitHeight touchingHandleConfig
                    + touchingHandleConfig.verticalGap
                    + bottomUnitHeight touchingHandleConfig)).Nonempty)) := by
  intro h
  have hmargin : handleMargin touchingHandleConfig = 80 := rfl
  have htu : topUnitHeight touchingHandleConfig = 680.4 := by
    show (1981 - 100 - 100 - 80 : ℚ) * (40 / 100) = 680.4
    norm_num
  have hw : (calculateCuts touchingHandleConfig).handleWarnings = [] := by
    show handleWarnings touchingHandleConfig = []
    unfold handleWarnings
    rw [if_pos, if_neg]
    · unfold overlapsTop overlapsBottom handleBottom handleTop topUnitTop
        topUnitBottom bottomUnitTop bottomUnitBottom
      rw [htu]
      push_neg
      constructor
      · intro hlt
        exfalso
        revert hlt
        show ¬ ((20 : ℚ) + 80 > 100)
        norm_num
      · intro hlt
        exfalso
        revert hlt
        show ¬ ((20 : ℚ) + 80 > 100 + 680.4 + 80)
        norm_num
    · rw [hmargin]
      show (140 : ℚ) > 80
      norm_num
  have hmem : (100 : ℚ) ∈
      Set.Icc (touchingHandleConfig.handleHeight - 80)
          (touchingHandleConfig.handleHeight + 80)
        ∩ Set.Icc touchingHandleConfig.topMargin
          (touchingHandleConfig.topMargin + topUnitHeight touchingHandleConfig) := by
    rw [htu]
    constructor
    · show (20 : ℚ) - 80 ≤ 100 ∧ (100 : ℚ) ≤ 20 + 80
      norm_num
    · show (100 : ℚ) ≤ 100 ∧ (100 : ℚ) ≤ 100 + 680.4
      norm_num
  have hspread : touchingHandleConfig.handleSpread > handleMargin touchingHandleConfig := by
    rw [hmargin]
    show (140 : ℚ) > 80
    norm_num
  exact h.mpr ⟨hspread, Or.inl ⟨100, hmem⟩⟩ hw

/-- C6 (amended): a handle warning is emitted if and only if
`handleSpread > handleMargin` and the handle band strictly overlaps a unit
span: `handleHeight + 80 > spanTop` and `handleHeight − 80 < spanBottom`
(boundary touching does not count, matching the strict comparisons in
the code). -/
theorem C6_handle_warning_threshold (c : DoorConfig) :
    (calculateCuts c).handleWarnings ≠ [] ↔
      c.handleSpread > handleMargin c
        ∧ ((c.handleHeight + 80 > c.topMargin
              ∧ c.handleHeight - 80 < c.topMargin + topUnitHeight c)
          ∨ (c.handleHeight + 80 > c.topMargin + topUnitHeight c + c.verticalGap
              ∧ c.handleHeight - 80
                < c.topMargin + topUnitHeight c + c.verticalGap
                  + bottomUnitHeight c)) := by
  show handleWarnings c ≠ [] ↔ _
  unfold handleWarnings overlapsTop overlapsBottom handleTop handleBottom
    topUnitTop topUnitBottom bottomUnitBottom bottomUnitTop
  split_ifs with h1 h2 <;> simp_all

/-- C7: `unitPositions` holds exactly the four quadrants in row-major order
with the claimed coordinates: beading left/right X at the column origin and
origin + panelUnitWidth, beading Y at the row origin, pin X at the
horizontal center of the unit, and pin Y at `row origin + beadingWidth/2`
(the center of
the top beading strip), all rounded to one decimal place. -/
theorem C7_unit_positions (c : DoorConfig) :
    (calculateCuts c).unitPositions =
      [ { label := "Top-Left"
          beadingLeftX := r c.leftMargin
          beadingRightX := r (c.leftMargin + panelUnitWidth c)
          beadingY := r c.topMargin
          pinX := r (c.leftMargin + panelUnitWidth c / 2)
          pinY := r (c.topMargin + c.beadingWidth / 2) },
        { label := "Top-Right"
          beadingLeftX := r (c.leftMargin + panelUnitWidth c + c.horizontalGap)
          beadingRightX := r (c.leftMargin + panelUnitWidth c + c.horizontalGap
            + panelUnitWidth c)
          beadingY := r c.topMargin
          pinX := r (c.leftMargin + panelUnitWidth c + c.horizontalGap
            + panelUnitWidth c / 2)
          pinY := r (c.topMargin + c.beadingWidth / 2) },
        { label := "Bottom-Left"
          beadingLeftX := r c.leftMargin
          beadingRightX := r (c.leftMargin + panelUnitWidth c)
          beadingY := r (c.topMargin + topUnitHeight c + c.verticalGap)
          pinX := r (c.leftMargin + panelUnitWidth c / 2)
          pinY := r (c.topMargin + topUnitHeight c + c.verticalGap
            + c.beadingWidth / 2) },
        { label := "Bottom-Right"
          beadingLeftX := r (c.leftMargin + panelUnitWidth c + c.horizontalGap)
          beadingRightX := r (c.leftMargin + panelUnitWidth c + c.horizontalGap
            + panelUnitWidth c)
          beadingY := r (c.topMargin + topUnitHeight c + c.verticalGap)
          pinX := r (c.leftMargin + panelUnitWidth c + c.horizontalGap
            + panelUnitWidth c / 2)
          pinY := r (c.topMargin + topUnitHeight c + c.verticalGap
            + c.beadingWidth / 2) } ] := rfl

/-- C8 (counterexample): with `topPanelRatio = 0` no panel width is valid, so
while increasing `mdfPanelWidth` does eventually force a negative gap and
invalidity, decreasing it can never restore validity — the unconditional
claim fails at this configuration. -/
theorem C8_counterexample :
    ¬ ∃ W : ℚ, ∀ w : ℚ, W < w →
        (calculateCuts (setWidth zeroRatioConfig w)).panelBeadingGap < 0
          ∧ (calculateCuts (setWidth zeroRatioConfig w)).isValid = false
          ∧ ∃ w' : ℚ, w' < w
              ∧ (calculateCuts (setWidth zeroRatioConfig w')).isValid = true := by
  rintro ⟨W, hW⟩
  obtain ⟨-, -, w', -, hv⟩ := hW (W + 1) (by linarith)
  rw [zeroRatioConfig_invalid w'] at hv
  exact Bool.false_ne_true hv

/-- C8 (amended): for every configuration that is currently valid,
increasing `mdfPanelWidth` past a threshold makes the returned
`panelBeadingGap` negative and `isValid` false, and from any such point a
smaller width (the original one) is valid again. -/
theorem C8_validity_monotonicity (c : DoorConfig)
    (h : (calculateCuts c).isValid = true) :
    ∃ W : ℚ, ∀ w : ℚ, W < w →
      (calculateCuts (setWidth c w)).panelBeadingGap < 0
        ∧ (calculateCuts (setWidth c w)).isValid = false
        ∧ ∃ w' : ℚ, w' < w ∧ (calculateCuts (setWidth c w')).isValid = true := by
  refine ⟨max (panelUnitWidth c - 2 * c.beadingWidth + 1) c.mdfPanelWidth,
    fun w hw => ?_⟩
  have hw1 : panelUnitWidth c - 2 * c.beadingWidth + 1 < w :=
    lt_of_le_of_lt (le_max_left _ _) hw
  have hw2 : c.mdfPanelWidth < w := lt_of_le_of_lt (le_max_right _ _) hw
  have egap : panelBeadingGap (setWidth c w)
      = (panelUnitWidth c - 2 * c.beadingWidth - w) / 2 := rfl
  have hgap : panelBeadingGap (setWidth c w) < -(1 / 2) := by
    rw [egap]; linarith
  have habs := r_abs_sub (panelBeadingGap (setWidth c w))
  have h1 : (calculateCuts (setWidth c w)).panelBeadingGap < 0 := by
    show r (panelBeadingGap (setWidth c w)) < 0
    have hle : r (panelBeadingGap (setWidth c w)) - panelBeadingGap (setWidth c w)
        ≤ 1 / 20 := le_trans (le_abs_self _) habs
    linarith
  refine ⟨h1, ?_, c.mdfPanelWidth, hw2, ?_⟩
  · cases hb : (calculateCuts (setWidth c w)).isValid with
    | false => rfl
    | true =>
      exfalso
      obtain ⟨-, hg, -, -⟩ := (isValid_iff_conditions _).mp hb
      rw [egap] at hg
      linarith
  · have e : setWidth c c.mdfPanelWidth = c := rfl
    rw [e]
    exact h

/-- C8 (witness): the default configuration is valid, so the amended
monotonicity property holds there. -/
theorem C8_witness :
    (calculateCuts defaultConfig).isValid = true
      ∧ ∃ W : ℚ, ∀ w : ℚ, W < w →
          (calculateCuts (setWidth defaultConfig w)).panelBeadingGap < 0
            ∧ (calculateCuts (setWidth defaultConfig w)).isValid = false
            ∧ ∃ w' : ℚ, w' < w
                ∧ (calculateCuts (setWidth defaultConfig w')).isValid = true :=
  ⟨isValid_defaultConfig,
    C8_validity_monotonicity defaultConfig isValid_defaultConfig⟩

/-- C9: `calculateCuts` never reads `handleIndent` — two configurations that
agree on every other field produce identical `CutResult`s. -/
theorem C9_handleIndent_noninterference (c₁ c₂ : DoorConfig)
    (hdw : c₁.doorWidth = c₂.doorWidth)
    (hdh : c₁.doorHeight = c₂.doorHeight)
    (htm : c₁.topMargin = c₂.topMargin)
    (hbm : c₁.bottomMargin = c₂.bottomMargin)
    (hlm : c₁.leftMargin = c₂.leftMargin)
    (hrm : c₁.rightMargin = c₂.rightMargin)
    (hhg : c₁.horizontalGap = c₂.horizontalGap)
    (hvg : c₁.verticalGap = c₂.verticalGap)
    (hbw : c₁.beadingWidth = c₂.beadingWidth)
    (hmw : c₁.mdfPanelWidth = c₂.mdfPanelWidth)
    (hra : c₁.topPanelRatio = c₂.topPanelRatio)
    (hhs : c₁.handleSide = c₂.handleSide)
    (hhh : c₁.handleHeight = c₂.handleHeight)
    (hsp : c₁.handleSpread = c₂.handleSpread) :
    calculateCuts c₁ = calculateCuts c₂ := by
  cases c₁
  cases c₂
  dsimp only at hdw hdh htm hbm hlm hrm hhg hvg hbw hmw hra hhs hhh hsp
  subst hdw hdh htm hbm hlm hrm hhg hvg hbw hmw hra hhs hhh hsp
  rfl

/-- C9 (witness): changing only `handleIndent` of the default configuration
(from 55 to 99) leaves the engine output unchanged. -/
theorem C9_witness :
    calculateCuts defaultConfig = calculateCuts indentVariantConfig :=
  C9_handleIndent_noninterference defaultConfig indentVariantConfig
    rfl rfl rfl rfl rfl rfl rfl rfl rfl rfl rfl rfl rfl rfl

/-- C10: at most one handle warning is ever emitted — even if the handle
band overlaps both unit spans, the single `push` inside the disjunction
produces one message. -/
theorem C10_at_most_one_warning (c : DoorConfig) :
    (calculateCuts c).handleWarnings.length ≤ 1 := by
  show (handleWarnings c).length ≤ 1
  unfold handleWarnings
  split_ifs <;> simp

end ShepherdsPowerTools
